import Mathlib

/-!
Shallow embedding of the WiFi provisioning state machine of the PI_Device
repository: the retry logic of `auto_setup_check.sh` (src/unnamed/part_000),
the client-connection scripts `smartwardrobe-connect-wifi.sh` (install.sh)
and `smartwardrobe-connection-manager.sh` (setup_ap.sh), the AP scripts
`smartwardrobe-force-ap.sh` in their several variants, the watchdog loops,
and the HTTP configure handlers of server.js and the plain-http setup
server (src/unnamed/part_003).

External commands (nmcli, ping, systemctl) are modelled by boolean oracles
recording their outcome; the scripts become total functions from those
oracles to the decisions, file writes and process actions they perform.
-/

namespace PIDevice

/-- WiFi credentials parsed from /etc/smartwardrobe/config.json with
`jq -r '.ssid // empty'`: an absent field becomes the empty string. -/
structure Config where
  ssid : String
  password : String
  deriving Repr, DecidableEq

/-- Mode decision taken by one run of a provisioning script: start AP mode,
settle in client mode, or schedule another connection attempt. -/
inductive Mode
  | AccessPoint
  | Client
  | Retry
  deriving Repr, DecidableEq

/-- External-network oracle: which hosts answer a ping probe. -/
structure Net where
  reach : String → Bool

/-- One `ping -c 1 HOST` invocation. -/
def ping (n : Net) (host : String) : Bool := n.reach host

/-- MAX_RETRIES of auto_setup_check.sh (src/unnamed/part_000 line 175). -/
def MAX_RETRIES : Nat := 3

/-- check_internet of auto_setup_check.sh (part_000 lines 182-188):
ping 8.8.8.8, or on failure ping 1.1.1.1; success if either answers. -/
def check_internet_asc (n : Net) : Bool :=
  ping n "8.8.8.8" || ping n "1.1.1.1"

/-- Environment of one run of auto_setup_check.sh: the flag and config
files and the outcomes of the external nmcli and ping commands. -/
structure AscEnv where
  setupFlag : Bool
  config : Option Config
  nmcliConnectOk : Bool
  linkUp : Bool
  net : Net

/-- Missing config file, or empty/absent ssid or password field. -/
def badCreds : Option Config → Bool
  | none => true
  | some c => c.ssid == "" || c.password == ""

/-- try_wifi_connection of auto_setup_check.sh (part_000 lines 191-232).
First component: did the function return 0 (connected with internet).
Second component: was a join (`nmcli dev wifi connect`) attempted. -/
def try_wifi_connection (e : AscEnv) : Bool × Bool :=
  match e.config with
  | none => (false, false)
  | some c =>
    if c.ssid == "" || c.password == "" then (false, false)
    else if e.nmcliConnectOk then
      if e.linkUp then (check_internet_asc e.net, true) else (false, true)
    else (false, true)

/-- Result of one run of auto_setup_check.sh: the mode decision, the retry
counter file value after the run, and whether a join was attempted. -/
structure AscOut where
  mode : Mode
  retryAfter : Nat
  joinAttempted : Bool
  deriving Repr, DecidableEq

/-- Main logic of auto_setup_check.sh (part_000 lines 255-302), as a
function of the pre-run retry counter file value `retry0`. -/
def auto_setup_check (e : AscEnv) (retry0 : Nat) : AscOut :=
  if e.setupFlag then ⟨Mode.AccessPoint, retry0, false⟩
  else
    match e.config with
    | none => ⟨Mode.AccessPoint, retry0, false⟩
    | some _ =>
      let r := try_wifi_connection e
      if r.1 then ⟨Mode.Client, 0, r.2⟩
      else if MAX_RETRIES - 1 ≤ retry0 then ⟨Mode.AccessPoint, 0, r.2⟩
      else ⟨Mode.Retry, retry0 + 1, r.2⟩

/-- A run that reaches the connection attempt (no setup flag, config file
present) and fails it. -/
def FailedAttempt (e : AscEnv) : Prop :=
  e.setupFlag = false ∧ e.config.isSome = true ∧ (try_wifi_connection e).1 = false

instance (e : AscEnv) : Decidable (FailedAttempt e) := by
  unfold FailedAttempt; infer_instance

/-- Concrete failing environment: valid credentials, but the nmcli join
command itself fails. -/
def ascFailEnv : AscEnv :=
  { setupFlag := false
    config := some ⟨"HomeWiFi", "pw123456"⟩
    nmcliConnectOk := false
    linkUp := false
    net := ⟨fun _ => false⟩ }

/-- Paths used by the configure handlers. -/
def CONFIG_PATH : String := "/etc/smartwardrobe/config.json"

/-- Temporary path used by the atomic write of server.js. -/
def CONFIG_TMP : String := "/etc/smartwardrobe/config.json.tmp"

/-- Retry counter file cleared by server.js on reconfiguration. -/
def RETRY_FLAG : String := "/tmp/smartwardrobe_wifi_retry"

/-- Forced-setup flag file cleared by server.js on reconfiguration. -/
def SETUP_FLAG : String := "/tmp/smartwardrobe_setup_mode"

/-- File-system operation performed by a configure handler. -/
inductive FileOp
  | writeFile (path content : String)
  | rename (src dst : String)
  | unlink (path : String)
  deriving Repr, DecidableEq

/-- Body of a POST configure request; `none` models an absent field. -/
structure ConfigureReq where
  ssid : Option String
  password : Option String
  apiKey : Option String
  backendUrl : Option String
  deriving Repr, DecidableEq

/-- JavaScript truthiness of an optional string field: an absent field and
the empty string are both falsy. -/
def truthy : Option String → Bool
  | none => false
  | some s => !(s == "")

/-- Abstraction of JSON.stringify of the config object: the claims depend
only on which path is written, so the serialized text is abstracted to a
concatenation of the submitted fields. -/
def configText (q : ConfigureReq) : String :=
  (q.ssid.getD "") ++ ";" ++ (q.password.getD "") ++ ";" ++
    (q.apiKey.getD "") ++ ";" ++ (q.backendUrl.getD "https://your-backend.com")

/-- POST /api/configure handler of server.js (lines 457-536): HTTP status
and the file operations it performs, in order.  On validation failure it
returns 400 before touching any file; on success it writes the temp file,
renames it onto the config path, and clears the retry and setup flags. -/
def serverJs_configure (q : ConfigureReq) : Nat × List FileOp :=
  if !truthy q.ssid || !truthy q.password || !truthy q.apiKey then (400, [])
  else
    (200, [FileOp.writeFile CONFIG_TMP (configText q),
           FileOp.rename CONFIG_TMP CONFIG_PATH,
           FileOp.unlink RETRY_FLAG,
           FileOp.unlink SETUP_FLAG])

/-- POST /configure handler of the plain-http setup server
(src/unnamed/part_003 lines 92-140): writes the config file directly,
without a temporary file. -/
def part003_configure (q : ConfigureReq) : Nat × List FileOp :=
  if !truthy q.ssid || !truthy q.password || !truthy q.apiKey then (400, [])
  else (200, [FileOp.writeFile CONFIG_PATH (configText q)])

/-- A sequence of file operations updates the config file atomically when
the config path is never the target of an in-place write, so its content
can only change via rename of a fully written temporary file. -/
def atomicConfigUpdate (ops : List FileOp) : Bool :=
  ops.all fun op =>
    match op with
    | FileOp.writeFile p _ => !(p == CONFIG_PATH)
    | _ => true

/-- check_internet of smartwardrobe-connect-wifi.sh (install.sh lines
380-382), of smartwardrobe-connection-manager.sh (setup_ap.sh lines
208-211) and of wifi_watchdog.sh (part_000 lines 351-353): a single ping
to 8.8.8.8. -/
def check_internet_cw (n : Net) : Bool := ping n "8.8.8.8"

/-- Reachability probe as the specification words it: two independent
external endpoints, success if either responds.  Stated from the spec for
comparison with the probes the scripts implement. -/
def probe_spec (n : Net) : Bool := ping n "8.8.8.8" || ping n "1.1.1.1"

/-- Environment of one run of a client-connection script: the config file
and the outcomes of the external nmcli commands. -/
structure CwEnv where
  config : Option Config
  conAddOk : Bool
  conModifyOk : Bool
  conUpOk : Bool
  net : Net

/-- Result of one run of a client-connection script. -/
structure CwOut where
  mode : Mode
  markerWrite : Option String
  joinAttempted : Bool
  profileExists : Bool
  deriving Repr, DecidableEq

/-- smartwardrobe-connect-wifi.sh (install.sh lines 368-460).  Missing or
invalid config delegates to force-ap at once.  Otherwise the script
deletes any old SmartWardrobe-WiFi profile, creates and configures a new
one, brings it up with a 60s timeout, probes the internet, and on full
success writes the "client" marker; every failure path deletes the
profile (line 456) before falling back to AP mode. -/
def connect_wifi (e : CwEnv) : CwOut :=
  match e.config with
  | none => ⟨Mode.AccessPoint, none, false, false⟩
  | some c =>
    if c.ssid == "" || c.password == "" then ⟨Mode.AccessPoint, none, false, false⟩
    else if e.conAddOk && e.conModifyOk then
      if e.conUpOk then
        if check_internet_cw e.net then ⟨Mode.Client, some "client", true, true⟩
        else ⟨Mode.AccessPoint, none, true, false⟩
      else ⟨Mode.AccessPoint, none, true, false⟩
    else ⟨Mode.AccessPoint, none, true, false⟩

/-- smartwardrobe-connection-manager.sh (setup_ap.sh lines 197-311).  Same
shape as connect_wifi, but the failure of `nmcli con add` exits without a
delete (no profile was created), while the later failure paths delete the
profile (lines 279 and 307) before falling back to AP mode. -/
def connection_manager (e : CwEnv) : CwOut :=
  match e.config with
  | none => ⟨Mode.AccessPoint, none, false, false⟩
  | some c =>
    if c.ssid == "" || c.password == "" then ⟨Mode.AccessPoint, none, false, false⟩
    else if !e.conAddOk then ⟨Mode.AccessPoint, none, true, false⟩
    else if !e.conModifyOk then ⟨Mode.AccessPoint, none, true, false⟩
    else if e.conUpOk then
      if check_internet_cw e.net then ⟨Mode.Client, some "client", true, true⟩
      else ⟨Mode.AccessPoint, none, true, false⟩
    else ⟨Mode.AccessPoint, none, true, false⟩

/-- Action taken by one iteration of wifi_watchdog.sh. -/
inductive WdAct
  | skip
  | ok
  | reconnect
  deriving Repr, DecidableEq

/-- Environment of one wifi_watchdog.sh iteration. -/
structure WwEnv where
  hostapdActive : Bool
  wifiConnected : Bool
  net : Net

/-- One iteration of the wifi_watchdog.sh main loop (part_000 lines
359-377): if hostapd is active it does not interfere; otherwise, when the
link is down, or up without internet, it logs and spawns
auto_setup_check.sh (a reconnect that can end in a mode switch). -/
def wifi_watchdog_iter (e : WwEnv) : WdAct :=
  if e.hostapdActive then WdAct.skip
  else if e.wifiConnected then
    if ping e.net "8.8.8.8" then WdAct.ok else WdAct.reconnect
  else WdAct.reconnect

/-- Action taken by check_network_connectivity of
smartwardrobe-watchdog.sh. -/
inductive SwAct
  | restartHostapd
  | restartDnsmasq
  | forceAp
  | logNoInternet
  | logUnknownMode
  deriving Repr, DecidableEq

/-- Environment of one check_network_connectivity call. -/
structure SwEnv where
  modeMarker : Option String
  hostapdActive : Bool
  dnsmasqActive : Bool
  hasApIp : Bool
  configExists : Bool
  net : Net

/-- check_network_connectivity of smartwardrobe-watchdog.sh (install.sh
lines 548-591): in "ap" mode restart the daemons that are down and rerun
force-ap if the static IP is missing; in "client" mode a failed internet
probe is only logged; in any other mode it logs, and reruns force-ap when
no config file exists. -/
def check_network_connectivity (e : SwEnv) : List SwAct :=
  let mode := e.modeMarker.getD "unknown"
  if mode == "ap" then
    (if !e.hostapdActive then [SwAct.restartHostapd] else []) ++
      (if !e.dnsmasqActive then [SwAct.restartDnsmasq] else []) ++
      (if !e.hasApIp then [SwAct.forceAp] else [])
  else if mode == "client" then
    if !(ping e.net "8.8.8.8") then [SwAct.logNoInternet] else []
  else
    SwAct.logUnknownMode :: (if !e.configExists then [SwAct.forceAp] else [])

/-- Environment of one run of smartwardrobe-force-ap.sh. -/
structure ApEnv where
  ipOk : Bool
  hostapdStartOk : Bool
  dnsmasqStartOk : Bool
  hostapdActive : Bool
  dnsmasqActive : Bool
  deriving Repr, DecidableEq

/-- smartwardrobe-force-ap.sh, install.sh variant (lines 295-365): exits
without writing the marker if the interface IP cannot be set or either
daemon fails to start; writes "ap" only after verifying that hostapd and
dnsmasq are both active. -/
def force_ap_install (e : ApEnv) : Option String :=
  if !e.ipOk then none
  else if !e.hostapdStartOk then none
  else if !e.dnsmasqStartOk then none
  else if e.hostapdActive && e.dnsmasqActive then some "ap"
  else none

/-- smartwardrobe-force-ap.sh, setup_ap.sh variant (lines 131-190): no
early exits around the service starts; writes "ap" only when hostapd and
dnsmasq are both verified active. -/
def force_ap_setup (hostapdActive dnsmasqActive : Bool) : Option String :=
  if hostapdActive && dnsmasqActive then some "ap" else none

/-- smartwardrobe-force-ap.sh, variant embedded in src/unnamed/part_002
(lines 239-244) and in rfid_service.js (lines 507-513): the verification
before writing "ap" checks hostapd only; the dnsmasq state is never
consulted. -/
def force_ap_p2 (hostapdActive _dnsmasqActive : Bool) : Option String :=
  if hostapdActive then some "ap" else none

/-- Concrete environment: valid credentials, join and link-up succeed, but
no external host answers a ping. -/
def ascNoInetEnv : AscEnv :=
  { setupFlag := false
    config := some ⟨"HomeWiFi", "pw123456"⟩
    nmcliConnectOk := true
    linkUp := true
    net := ⟨fun _ => false⟩ }

/-- Concrete environment: config file present but with an empty password. -/
def ascInvalidEnv : AscEnv :=
  { setupFlag := false
    config := some ⟨"HomeWiFi", ""⟩
    nmcliConnectOk := true
    linkUp := true
    net := ⟨fun _ => true⟩ }

/-- Network where only the secondary probe endpoint 1.1.1.1 answers. -/
def netOnlySecondary : Net := ⟨fun h => h == "1.1.1.1"⟩

/-- Concrete connect-wifi environment: valid credentials, every nmcli step
succeeds, and only 1.1.1.1 answers pings. -/
def cwOnlySecondaryEnv : CwEnv :=
  { config := some ⟨"HomeWiFi", "pw123456"⟩
    conAddOk := true
    conModifyOk := true
    conUpOk := true
    net := netOnlySecondary }

/-- Concrete connect-wifi environment whose bring-up times out. -/
def cwUpFailEnv : CwEnv :=
  { config := some ⟨"HomeWiFi", "pw123456"⟩
    conAddOk := true
    conModifyOk := true
    conUpOk := false
    net := ⟨fun _ => true⟩ }

/-- Concrete connect-wifi environment with no config file present. -/
def cwNoConfigEnv : CwEnv :=
  { config := none
    conAddOk := true
    conModifyOk := true
    conUpOk := true
    net := ⟨fun _ => true⟩ }

/-- Concrete connect-wifi environment where every step succeeds. -/
def cwAllOkEnv : CwEnv :=
  { config := some ⟨"HomeWiFi", "pw123456"⟩
    conAddOk := true
    conModifyOk := true
    conUpOk := true
    net := ⟨fun _ => true⟩ }

/-- A link-up attempt whose both reachability probes fail: no setup flag,
valid credentials, join and link-up succeed, internet probe fails. -/
def AscNoInternet (e : AscEnv) : Prop :=
  e.setupFlag = false ∧ badCreds e.config = false ∧
    e.nmcliConnectOk = true ∧ e.linkUp = true ∧ check_internet_asc e.net = false

instance (e : AscEnv) : Decidable (AscNoInternet e) := by
  unfold AscNoInternet; infer_instance

/-- Concrete valid configure request. -/
def okReq : ConfigureReq :=
  { ssid := some "HomeWiFi"
    password := some "pw123456"
    apiKey := some "key-1234567890"
    backendUrl := none }

/-- Concrete configure request with the apiKey field absent. -/
def noKeyReq : ConfigureReq :=
  { ssid := some "HomeWiFi"
    password := some "pw123456"
    apiKey := none
    backendUrl := none }

/-- Concrete watchdog environment: setup mode inactive, link up, no host
answers pings. -/
def wwNoInetEnv : WwEnv :=
  { hostapdActive := false
    wifiConnected := true
    net := ⟨fun _ => false⟩ }

/-- Concrete smartwardrobe-watchdog environment in client mode without
internet. -/
def swClientEnv : SwEnv :=
  { modeMarker := some "client"
    hostapdActive := false
    dnsmasqActive := false
    hasApIp := false
    configExists := true
    net := ⟨fun _ => false⟩ }

/-- Claim C1: starting from a zero retry counter, two consecutive failed
attempts decide Retry with the counter advancing 1 then 2, and the run
containing the third consecutive failed attempt decides AccessPoint (setup
mode) regardless of config validity, resetting the counter to 0. -/
theorem c1_three_failures_force_ap (e1 e2 e3 : AscEnv)
    (h1 : FailedAttempt e1) (h2 : FailedAttempt e2) (h3 : FailedAttempt e3) :
    (auto_setup_check e1 0).mode = Mode.Retry ∧
    (auto_setup_check e1 0).retryAfter = 1 ∧
    (auto_setup_check e2 1).mode = Mode.Retry ∧
    (auto_setup_check e2 1).retryAfter = 2 ∧
    (auto_setup_check e3 2).mode = Mode.AccessPoint ∧
    (auto_setup_check e3 2).retryAfter = 0 := by
  obtain ⟨f1, c1, t1⟩ := h1
  obtain ⟨f2, c2, t2⟩ := h2
  obtain ⟨f3, c3, t3⟩ := h3
  obtain ⟨cfg1, hc1⟩ := Option.isSome_iff_exists.mp c1
  obtain ⟨cfg2, hc2⟩ := Option.isSome_iff_exists.mp c2
  obtain ⟨cfg3, hc3⟩ := Option.isSome_iff_exists.mp c3
  simp [auto_setup_check, f1, f2, f3, hc1, hc2, hc3, t1, t2, t3, MAX_RETRIES]

/-- Witness for C1 at the concrete failing environment. -/
theorem c1_three_failures_force_ap_witness :
    (auto_setup_check ascFailEnv 2).mode = Mode.AccessPoint ∧
    (auto_setup_check ascFailEnv 2).retryAfter = 0 := by
  have h := c1_three_failures_force_ap ascFailEnv ascFailEnv ascFailEnv
    (by decide) (by decide) (by decide)
  exact ⟨h.2.2.2.2.1, h.2.2.2.2.2⟩

/-- Claim C2 counterexample: with the counter at 2, a failed attempt
resets the counter to 0 while deciding AccessPoint — a reset caused
neither by a Connected result nor by a config overwrite, and a strict
decrease of the counter across a consecutive failed attempt. -/
theorem c2_reset_on_exhaustion_counterexample :
    (auto_setup_check ascFailEnv 2).mode = Mode.AccessPoint ∧
    (auto_setup_check ascFailEnv 2).retryAfter = 0 ∧
    (auto_setup_check ascFailEnv 2).retryAfter < 2 := by decide

/-- Claim C2 amended: on a failed attempt below the threshold the counter
increments (so it is non-decreasing there); the counter strictly decreases
only on a Connected (Client) result or on the exhaustion fallback to
AccessPoint after a failed attempt at the threshold; and a successful
reconfiguration through the server.js configure endpoint clears the retry
counter file. -/
theorem c2_retry_counter_amended (e : AscEnv) (r : Nat) :
    (FailedAttempt e → r < MAX_RETRIES - 1 →
      (auto_setup_check e r).retryAfter = r + 1) ∧
    ((auto_setup_check e r).retryAfter < r →
      (auto_setup_check e r).mode = Mode.Client ∨
        ((auto_setup_check e r).mode = Mode.AccessPoint ∧ FailedAttempt e ∧
          MAX_RETRIES - 1 ≤ r)) ∧
    (∀ q : ConfigureReq, (serverJs_configure q).1 = 200 →
      FileOp.unlink RETRY_FLAG ∈ (serverJs_configure q).2) := by
  refine ⟨?_, ?_, ?_⟩
  · rintro ⟨hf, hc, ht⟩ hr
    obtain ⟨c, hcc⟩ := Option.isSome_iff_exists.mp hc
    have hnr : ¬ (MAX_RETRIES - 1 ≤ r) := by omega
    simp [auto_setup_check, hf, hcc, ht, hnr]
  · intro hlt
    by_cases hf : e.setupFlag = true
    · simp [auto_setup_check, hf] at hlt
    · have hf0 : e.setupFlag = false := by simpa using hf
      cases hcfg : e.config with
      | none =>
        simp [auto_setup_check, hf0, hcfg] at hlt
      | some c =>
        by_cases ht : (try_wifi_connection e).1 = true
        · left
          simp [auto_setup_check, hf0, hcfg, ht]
        · have ht0 : (try_wifi_connection e).1 = false := by simpa using ht
          by_cases hr : MAX_RETRIES - 1 ≤ r
          · right
            refine ⟨by simp [auto_setup_check, hf0, hcfg, ht0, hr],
              ⟨hf0, by simp [hcfg], ht0⟩, hr⟩
          · exfalso
            simp [auto_setup_check, hf0, hcfg, ht0, hr] at hlt
  · intro q hq
    by_cases hv : (!truthy q.ssid || !truthy q.password || !truthy q.apiKey) = true
    · simp [serverJs_configure, hv] at hq
    · have hv0 : (!truthy q.ssid || !truthy q.password || !truthy q.apiKey) = false := by
        simpa using hv
      simp [serverJs_configure, hv0]

/-- Witness for the amended C2 at the concrete failing environment. -/
theorem c2_retry_counter_amended_witness :
    (auto_setup_check ascFailEnv 1).retryAfter = 1 + 1 :=
  (c2_retry_counter_amended ascFailEnv 1).1 (by decide) (by decide)

/-- Claim C3 counterexample: with the config file present but its password
empty and the retry counter at 0, auto_setup_check.sh decides Retry (it
schedules another attempt), not AccessPoint; no join is attempted. -/
theorem c3_invalid_config_counterexample :
    (auto_setup_check ascInvalidEnv 0).mode = Mode.Retry ∧
    ¬ (auto_setup_check ascInvalidEnv 0).mode = Mode.AccessPoint ∧
    (auto_setup_check ascInvalidEnv 0).joinAttempted = false := by decide

/-- Claim C3 amended: a missing or invalid config never leads to a join
attempt in any variant.  The connect-wifi and connection-manager scripts
select AccessPoint directly; auto_setup_check.sh selects AccessPoint
directly only when the config file is missing, while a present-but-invalid
config counts as a failed attempt under retry accounting (Retry below the
threshold, AccessPoint at the threshold). -/
theorem c3_invalid_config_routes_amended (cw cm : CwEnv) (e : AscEnv) (r : Nat) :
    (badCreds cw.config = true →
      (connect_wifi cw).mode = Mode.AccessPoint ∧
      (connect_wifi cw).joinAttempted = false) ∧
    (badCreds cm.config = true →
      (connection_manager cm).mode = Mode.AccessPoint ∧
      (connection_manager cm).joinAttempted = false) ∧
    (e.setupFlag = false → e.config = none →
      (auto_setup_check e r).mode = Mode.AccessPoint ∧
      (auto_setup_check e r).joinAttempted = false) ∧
    (e.setupFlag = false → badCreds e.config = true → e.config ≠ none →
      (auto_setup_check e r).joinAttempted = false ∧
      (r < MAX_RETRIES - 1 → (auto_setup_check e r).mode = Mode.Retry) ∧
      (MAX_RETRIES - 1 ≤ r → (auto_setup_check e r).mode = Mode.AccessPoint)) := by
  refine ⟨?_, ?_, ?_, ?_⟩
  · intro hb
    cases hcfg : cw.config with
    | none => simp [connect_wifi, hcfg]
    | some c =>
      rw [hcfg] at hb
      simp only [badCreds] at hb
      simp [connect_wifi, hcfg, hb]
  · intro hb
    cases hcfg : cm.config with
    | none => simp [connection_manager, hcfg]
    | some c =>
      rw [hcfg] at hb
      simp only [badCreds] at hb
      simp [connection_manager, hcfg, hb]
  · intro hf hcfg
    simp [auto_setup_check, hf, hcfg]
  · intro hf hb hne
    cases hcfg : e.config with
    | none => exact absurd hcfg hne
    | some c =>
      rw [hcfg] at hb
      simp only [badCreds] at hb
      have ht : try_wifi_connection e = (false, false) := by
        simp [try_wifi_connection, hcfg, hb]
      refine ⟨?_, ?_, ?_⟩
      · by_cases hr : MAX_RETRIES - 1 ≤ r <;>
          simp [auto_setup_check, hf, hcfg, ht, hr]
      · intro hr
        have hnr : ¬ (MAX_RETRIES - 1 ≤ r) := by omega
        simp [auto_setup_check, hf, hcfg, ht, hnr]
      · intro hr
        simp [auto_setup_check, hf, hcfg, ht, hr]

/-- Witness for the amended C3: a missing config file routes connect-wifi
directly to AccessPoint without a join attempt. -/
theorem c3_invalid_config_routes_amended_witness :
    (connect_wifi cwNoConfigEnv).mode = Mode.AccessPoint ∧
    (connect_wifi cwNoConfigEnv).joinAttempted = false :=
  (c3_invalid_config_routes_amended cwNoConfigEnv cwNoConfigEnv ascInvalidEnv 0).1
    (by decide)

/-- Claim C4 counterexample: a link-up attempt whose both probes fail,
taken with the retry counter at 2, is a failure but resets the counter to
0 instead of incrementing it to 3. -/
theorem c4_no_internet_at_threshold_counterexample :
    (try_wifi_connection ascNoInetEnv).1 = false ∧
    (auto_setup_check ascNoInetEnv 2).retryAfter = 0 ∧
    ¬ (auto_setup_check ascNoInetEnv 2).retryAfter = 2 + 1 := by decide

/-- Claim C4 amended: a link-up attempt whose reachability probe fails is
a failed attempt (never successful provisioning): in auto_setup_check.sh
the counter increments when below the threshold and resets with an
AccessPoint fallback at the threshold; in connect-wifi the "client" mode
marker is not written and the run falls back to AccessPoint. -/
theorem c4_connected_no_internet_amended (e : AscEnv) (cw : CwEnv) (r : Nat) :
    (AscNoInternet e →
      (try_wifi_connection e).1 = false ∧
      (r < MAX_RETRIES - 1 → (auto_setup_check e r).retryAfter = r + 1) ∧
      (MAX_RETRIES - 1 ≤ r → (auto_setup_check e r).mode = Mode.AccessPoint ∧
        (auto_setup_check e r).retryAfter = 0)) ∧
    (badCreds cw.config = false → cw.conAddOk = true → cw.conModifyOk = true →
      cw.conUpOk = true → check_internet_cw cw.net = false →
      (connect_wifi cw).markerWrite = none ∧
      (connect_wifi cw).mode = Mode.AccessPoint) := by
  constructor
  · rintro ⟨hf, hb, hn, hl, hi⟩
    cases hcfg : e.config with
    | none => rw [hcfg] at hb; simp [badCreds] at hb
    | some c =>
      rw [hcfg] at hb
      simp only [badCreds] at hb
      have ht : (try_wifi_connection e).1 = false := by
        simp [try_wifi_connection, hcfg, hb, hn, hl, hi]
      refine ⟨ht, ?_, ?_⟩
      · intro hr
        have hnr : ¬ (MAX_RETRIES - 1 ≤ r) := by omega
        simp [auto_setup_check, hf, hcfg, ht, hnr]
      · intro hr
        simp [auto_setup_check, hf, hcfg, ht, hr]
  · intro hb ha hm hu hi
    cases hcfg : cw.config with
    | none => rw [hcfg] at hb; simp [badCreds] at hb
    | some c =>
      rw [hcfg] at hb
      simp only [badCreds] at hb
      simp [connect_wifi, hcfg, hb, ha, hm, hu, hi]

/-- Witness for the amended C4 at the concrete no-internet environment. -/
theorem c4_connected_no_internet_amended_witness :
    (auto_setup_check ascNoInetEnv 0).retryAfter = 0 + 1 :=
  ((c4_connected_no_internet_amended ascNoInetEnv cwUpFailEnv 0).1
    (by decide)).2.1 (by decide)

/-- Claim C5 counterexample: the plain-http configure handler of part_003
writes the config path in place on a valid request — not a temp-file plus
rename write. -/
theorem c5_direct_write_counterexample :
    (part003_configure okReq).2 =
      [FileOp.writeFile CONFIG_PATH (configText okReq)] ∧
    atomicConfigUpdate (part003_configure okReq).2 = false := by decide

/-- Claim C5 amended: the server.js configure handler never writes the
config path in place — on success its operations are exactly the temp-file
write, the rename onto the config path, and the flag removals — while the
part_003 handler writes the config path directly (non-atomically) on every
successful request. -/
theorem c5_atomic_write_amended (q : ConfigureReq) :
    atomicConfigUpdate (serverJs_configure q).2 = true ∧
    ((serverJs_configure q).1 = 200 →
      (serverJs_configure q).2 =
        [FileOp.writeFile CONFIG_TMP (configText q),
         FileOp.rename CONFIG_TMP CONFIG_PATH,
         FileOp.unlink RETRY_FLAG, FileOp.unlink SETUP_FLAG]) ∧
    ((part003_configure q).1 = 200 →
      atomicConfigUpdate (part003_configure q).2 = false) := by
  by_cases hv : (!truthy q.ssid || !truthy q.password || !truthy q.apiKey) = true
  · refine ⟨by simp [serverJs_configure, hv, atomicConfigUpdate], ?_, ?_⟩
    · intro hq
      simp [serverJs_configure, hv] at hq
    · intro hq
      simp [part003_configure, hv] at hq
  · have hv0 : (!truthy q.ssid || !truthy q.password || !truthy q.apiKey) = false := by
      simpa using hv
    refine ⟨?_, fun _ => by simp [serverJs_configure, hv0], fun _ => ?_⟩
    · simp [serverJs_configure, hv0, atomicConfigUpdate, CONFIG_TMP, CONFIG_PATH]
    · simp [part003_configure, hv0, atomicConfigUpdate]

/-- Witness for the amended C5 at the concrete valid request. -/
theorem c5_atomic_write_amended_witness :
    (serverJs_configure okReq).2 =
      [FileOp.writeFile CONFIG_TMP (configText okReq),
       FileOp.rename CONFIG_TMP CONFIG_PATH,
       FileOp.unlink RETRY_FLAG, FileOp.unlink SETUP_FLAG] :=
  (c5_atomic_write_amended okReq).2.1 (by decide)

/-- Claim C6: after any run of either client-connection script, the
SmartWardrobe-WiFi profile exists exactly when the run ended in Client
mode; every failure path deletes (or never created) the profile before the
script returns. -/
theorem c6_profile_deleted_on_failure (e1 e2 : CwEnv) :
    (connect_wifi e1).profileExists =
      decide ((connect_wifi e1).mode = Mode.Client) ∧
    (connection_manager e2).profileExists =
      decide ((connection_manager e2).mode = Mode.Client) := by
  constructor
  · cases hcfg : e1.config with
    | none => simp [connect_wifi, hcfg]
    | some c =>
      by_cases h1 : (c.ssid == "" || c.password == "") = true <;>
        by_cases h2 : (e1.conAddOk && e1.conModifyOk) = true <;>
          cases hu : e1.conUpOk <;>
            cases hp : check_internet_cw e1.net <;>
              simp [connect_wifi, hcfg, h1, h2, hu, hp]
  · cases hcfg : e2.config with
    | none => simp [connection_manager, hcfg]
    | some c =>
      by_cases h1 : (c.ssid == "" || c.password == "") = true <;>
        cases ha : e2.conAddOk <;>
          cases hm : e2.conModifyOk <;>
            cases hu : e2.conUpOk <;>
              cases hp : check_internet_cw e2.net <;>
                simp [connection_manager, hcfg, h1, ha, hm, hu, hp]

/-- Claim C7 counterexample: with 8.8.8.8 unreachable and 1.1.1.1
reachable, the two-endpoint policy the spec describes succeeds, but the
connect-wifi post-join probe fails and its run falls back to AccessPoint. -/
theorem c7_single_endpoint_counterexample :
    probe_spec netOnlySecondary = true ∧
    check_internet_cw netOnlySecondary = false ∧
    (connect_wifi cwOnlySecondaryEnv).mode = Mode.AccessPoint := by decide

/-- Claim C7 amended: only the auto_setup_check.sh probe implements the
two-endpoint either-succeeds policy; the connect-wifi and
connection-manager post-join probes ping 8.8.8.8 alone, so they fail
whenever 8.8.8.8 is down, even with 1.1.1.1 reachable. -/
theorem c7_probe_endpoints_amended (n : Net) :
    check_internet_asc n = probe_spec n ∧
    check_internet_cw n = ping n "8.8.8.8" ∧
    (ping n "8.8.8.8" = false → ping n "1.1.1.1" = true →
      check_internet_asc n = true ∧ check_internet_cw n = false) := by
  refine ⟨rfl, rfl, fun h8 h1 => ?_⟩
  simp [check_internet_asc, check_internet_cw, h8, h1]

/-- Witness for the amended C7 at the network where only 1.1.1.1 answers. -/
theorem c7_probe_endpoints_amended_witness :
    check_internet_asc netOnlySecondary = true ∧
    check_internet_cw netOnlySecondary = false :=
  (c7_probe_endpoints_amended netOnlySecondary).2.2 (by decide) (by decide)

/-- Claim C8 counterexample: one wifi_watchdog.sh iteration in client mode
(hostapd inactive) with the link up but no internet spawns a reconnect
(auto_setup_check.sh) rather than only logging. -/
theorem c8_wifi_watchdog_counterexample :
    wifi_watchdog_iter wwNoInetEnv = WdAct.reconnect ∧
    ¬ wifi_watchdog_iter wwNoInetEnv = WdAct.ok := by decide

/-- Claim C8 amended: the smartwardrobe-watchdog.sh variant in Client
mode never restarts daemons or reruns force-ap and at most logs the
internet loss; the wifi_watchdog.sh variant instead triggers a reconnect
whenever internet is lost in client mode. -/
theorem c8_client_mode_watchdog_amended (e : SwEnv) (w : WwEnv) :
    (e.modeMarker = some "client" →
      SwAct.forceAp ∉ check_network_connectivity e ∧
      SwAct.restartHostapd ∉ check_network_connectivity e ∧
      SwAct.restartDnsmasq ∉ check_network_connectivity e ∧
      (ping e.net "8.8.8.8" = false →
        check_network_connectivity e = [SwAct.logNoInternet])) ∧
    (w.hostapdActive = false → w.wifiConnected = true →
      ping w.net "8.8.8.8" = false →
      wifi_watchdog_iter w = WdAct.reconnect) := by
  constructor
  · intro hm
    cases hp : ping e.net "8.8.8.8" <;>
      simp [check_network_connectivity, hm, hp]
  · intro hh hw hp
    simp [wifi_watchdog_iter, hh, hw, hp]

/-- Witness for the amended C8 at the concrete client-mode environments. -/
theorem c8_client_mode_watchdog_amended_witness :
    check_network_connectivity swClientEnv = [SwAct.logNoInternet] :=
  ((c8_client_mode_watchdog_amended swClientEnv wwNoInetEnv).1
    (by decide)).2.2.2 (by decide)

/-- Claim C9 counterexample: the part_002 / rfid_service variant of
force-ap writes the "ap" marker after verifying hostapd alone — it writes
"ap" even while dnsmasq is inactive, where the install.sh variant writes
nothing. -/
theorem c9_ap_marker_counterexample :
    force_ap_p2 true false = some "ap" ∧
    force_ap_install ⟨true, true, true, true, false⟩ = none := by decide

/-- Claim C9 amended: every marker write carries exactly "ap" or
"client"; "client" is written only after the internet probe succeeded, and
no marker is written on a verification failure; "ap" is written after
verifying hostapd and dnsmasq in the install.sh and setup_ap.sh variants,
but after verifying hostapd alone in the part_002 / rfid_service variant. -/
theorem c9_marker_tokens_amended (e : ApEnv) (h d : Bool) (cw cm : CwEnv) :
    (∀ t, force_ap_install e = some t →
      t = "ap" ∧ e.hostapdActive = true ∧ e.dnsmasqActive = true) ∧
    (∀ t, force_ap_setup h d = some t → t = "ap" ∧ h = true ∧ d = true) ∧
    (∀ t, force_ap_p2 h d = some t → t = "ap" ∧ h = true) ∧
    (∀ t, (connect_wifi cw).markerWrite = some t →
      t = "client" ∧ check_internet_cw cw.net = true) ∧
    (∀ t, (connection_manager cm).markerWrite = some t →
      t = "client" ∧ check_internet_cw cm.net = true) := by
  refine ⟨?_, ?_, ?_, ?_, ?_⟩
  · intro t ht
    cases hip : e.ipOk <;> cases hhs : e.hostapdStartOk <;>
      cases hds : e.dnsmasqStartOk <;> cases hha : e.hostapdActive <;>
        cases hda : e.dnsmasqActive <;>
          simp [force_ap_install, hip, hhs, hds, hha, hda] at ht ⊢
    exact ht.symm
  · intro t ht
    cases h <;> cases d <;> simp [force_ap_setup] at ht ⊢
    exact ht.symm
  · intro t ht
    cases h <;> simp [force_ap_p2] at ht ⊢
    exact ht.symm
  · intro t ht
    cases hcfg : cw.config with
    | none => simp [connect_wifi, hcfg] at ht
    | some c =>
      by_cases h1 : (c.ssid == "" || c.password == "") = true <;>
        by_cases h2 : (cw.conAddOk && cw.conModifyOk) = true <;>
          cases hu : cw.conUpOk <;>
            cases hp : check_internet_cw cw.net <;>
              simp [connect_wifi, hcfg, h1, h2, hu, hp] at ht ⊢
      exact ht.symm
  · intro t ht
    cases hcfg : cm.config with
    | none => simp [connection_manager, hcfg] at ht
    | some c =>
      by_cases h1 : (c.ssid == "" || c.password == "") = true <;>
        cases ha : cm.conAddOk <;>
          cases hm : cm.conModifyOk <;>
            cases hu : cm.conUpOk <;>
              cases hp : check_internet_cw cm.net <;>
                simp [connection_manager, hcfg, h1, ha, hm, hu, hp] at ht ⊢
      exact ht.symm

/-- Witness for the amended C9: a fully verified install.sh force-ap run
writes the token "ap" with both daemons confirmed active. -/
theorem c9_marker_tokens_amended_witness :
    "ap" = "ap" ∧ (ApEnv.mk true true true true true).hostapdActive = true ∧
      (ApEnv.mk true true true true true).dnsmasqActive = true :=
  (c9_marker_tokens_amended ⟨true, true, true, true, true⟩ true true
    cwAllOkEnv cwAllOkEnv).1 "ap" (by decide)

/-- Claim C10: a configure request with ssid, password or apiKey absent is
answered with HTTP 400 and performs no file operation, in both the
server.js handler and the part_003 handler. -/
theorem c10_missing_fields_rejected (q : ConfigureReq)
    (h : q.ssid = none ∨ q.password = none ∨ q.apiKey = none) :
    (serverJs_configure q).1 = 400 ∧ (serverJs_configure q).2 = [] ∧
    (part003_configure q).1 = 400 ∧ (part003_configure q).2 = [] := by
  have hv : (!truthy q.ssid || !truthy q.password || !truthy q.apiKey) = true := by
    rcases h with h | h | h <;> simp [h, truthy]
  simp [serverJs_configure, part003_configure, hv]

/-- Witness for C10 at the request whose apiKey field is absent. -/
theorem c10_missing_fields_rejected_witness :
    (serverJs_configure noKeyReq).1 = 400 ∧ (serverJs_configure noKeyReq).2 = [] ∧
    (part003_configure noKeyReq).1 = 400 ∧ (part003_configure noKeyReq).2 = [] :=
  c10_missing_fields_rejected noKeyReq (by decide)

end PIDevice
